import Mathlib

/-!
Verification of the fetch-and-cache orchestration engine of the
`amazon-product-enhancer` browser extension (AmzInsight repository).

The definitions below are a shallow embedding, translated directly from
the JavaScript sources:

* `src/amazon-product-enhancer/settings-manager.js` — the `ErrorHandler`
  class (`handleNetworkError`, `handleGracefulDegradation`);
* `src/amazon-product-enhancer/background.js` — the `BackgroundService`
  class (`handleFetchProductDetails`, `fetchAndProcessProduct`,
  `fetchProductPage`, `parseProductData`);
* `src/amazon-product-enhancer/cache-manager.js` — the `CacheManager`
  class (`getCachedData`, `cacheProductData`, `cleanupCache`,
  `checkAndCleanupCache`, `getCacheStats`, `removeFromCache`,
  `addToCacheIndex`, `clearCache`).

Machine integers of JavaScript are embedded as `Nat` (all quantities
involved — timestamps, counters, millisecond delays — are non-negative and
far below 2^53, where JavaScript arithmetic is exact), the fractional
settings `cleanupThreshold`/`cleanupRatio` and the derived statistics as
`ℚ`.  Wall-clock time (`Date.now()`) is passed explicitly as a `now`
parameter.  Asynchronous completion is modelled by explicit state passing:
every operation takes the relevant state and returns the updated state.
-/

/-- `String.prototype.includes` on lists of characters: does `needle`
occur contiguously inside `hay`? -/
def matchHere (hay needle : List Char) : Bool :=
  match hay, needle with
  | _, [] => true
  | [], _ :: _ => false
  | h :: hs, n :: ns => h == n && matchHere hs ns

/-- Substring search over lists of characters. -/
def listHas (hay needle : List Char) : Bool :=
  match hay with
  | [] => needle.isEmpty
  | _ :: hs => matchHere hay needle || listHas hs needle

/-- JavaScript `hay.includes(needle)`. -/
def strHas (hay needle : String) : Bool :=
  listHas hay.toList needle.toList

example : strHas "Request timed out" "timed" = true := by decide
example : strHas "Request timed out" "timeout" = false := by decide

/-- A JavaScript `Error` value: its `name` and `message` properties. -/
structure JsError where
  name : String
  message : String
deriving Repr, DecidableEq

/-- `new Error(msg)` — the default `name` is `"Error"`. -/
def mkError (msg : String) : JsError := ⟨"Error", msg⟩

/-- The standardized error object returned by
`ErrorHandler.handleNetworkError` (settings-manager.js, lines 490–564):
`type`, `userMessage`, `technicalMessage`, `recoverable`,
`retryStrategy`.  The `context`/`timestamp` fields carry no policy and
are omitted. -/
structure ErrInfo where
  type : String
  userMessage : String
  technicalMessage : String
  recoverable : Bool
  retryStrategy : String
deriving Repr, DecidableEq

/-- `ErrorHandler.handleNetworkError` (settings-manager.js lines
490–564), classification of a raw failure by substring matching on the
error message.  `technicalMessage` starts as
`error.message || 'Unknown network error'` (the JavaScript `||` takes the
fallback when the message is the empty string). -/
def handleNetworkError (e : JsError) : ErrInfo :=
  let m := if e.message = "" then "Unknown network error" else e.message
  if e.name == "AbortError" || strHas m "timeout" then
    ⟨"timeout", "请求超时，请稍后再试", "Request timed out", true, "exponential"⟩
  else if strHas m "NetworkError" || strHas m "network" then
    ⟨"connection", "网络连接错误，请检查您的网络连接", "Network connection error", true, "linear"⟩
  else if strHas m "CAPTCHA" || strHas m "robot" then
    ⟨"captcha", "访问受限，请稍后再试", "CAPTCHA detected, access blocked", false, "none"⟩
  else if strHas m "404" || strHas m "not found" then
    ⟨"not_found", "产品信息不可用", "Product page not found (404)", false, "none"⟩
  else if strHas m "403" || strHas m "forbidden" then
    ⟨"forbidden", "访问被拒绝，请稍后再试", "Access forbidden (403)", false, "none"⟩
  else if strHas m "429" || strHas m "too many requests" then
    ⟨"rate_limited", "请求过于频繁，请稍后再试", "Rate limited (429)", true, "exponential"⟩
  else if strHas m "500" || strHas m "server error" then
    ⟨"server_error", "服务器错误，请稍后再试", "Server error (500)", true, "linear"⟩
  else
    ⟨"unknown", "网络错误，请稍后再试", m, true, "exponential"⟩

/-- Outcome of the raw `fetch()` call inside `fetchProductPage`: either a
thrown JavaScript error (abort, network failure, …) or an HTTP response
with a status code and a body text. -/
inductive FetchOutcome where
  | exn (e : JsError)
  | resp (status : Nat) (body : String)
deriving Repr, DecidableEq

/-- `BackgroundService.fetchProductPage` (background.js lines 370–453),
minus the timers (modelled separately by `perAttemptDeadline` /
`attemptDeadlines`): validation of the HTTP response, and the `catch`
block that rewrites recognized errors into canonical `Error` messages.
`response.ok` is status 200–299. -/
def fetchProductPage (outcome : FetchOutcome) : Except JsError String :=
  let inner : Except JsError String :=
    match outcome with
    | .exn e => .error e
    | .resp status body =>
      if ¬ (200 ≤ status ∧ status ≤ 299) then
        .error (mkError ("HTTP error! Status: " ++ toString status))
      else if body = "" then
        .error (mkError "Empty response received")
      else if body.length < 1000 then
        .error (mkError "Response too small, likely not a valid product page")
      else if ¬ strHas body "<html" then
        .error (mkError "Invalid HTML response received")
      else if strHas body "captcha" ∧ strHas body "robot" then
        .error (mkError "Access blocked - CAPTCHA detected")
      else if strHas body "page you requested could not be found" ∨
              (strHas body "404" ∧ strHas body "not found") then
        .error (mkError "Product page not found (404)")
      else
        .ok body
  match inner with
  | .ok h => .ok h
  | .error e =>
    if e.name == "AbortError" then
      .error (mkError "Request timed out")
    else if strHas e.message "NetworkError" || strHas e.message "network" then
      .error (mkError "Network error, check your connection")
    else if strHas e.message "CAPTCHA" then
      .error (mkError "Access blocked - CAPTCHA verification required")
    else if strHas e.message "404" || strHas e.message "not found" then
      .error (mkError "Product page not found")
    else
      .error e

/-- `const timeout = 10000 + (retryCount * 5000)` in `fetchProductPage`
(background.js line 371). -/
def fetchTimeoutMs (retryCount : Nat) : Nat := 10000 + retryCount * 5000

/-- The per-attempt deadline that `fetchProductPage` actually arms
(background.js lines 375–379): an own `AbortController` with the widening
timeout is created only when no external signal is supplied
(`const controller = externalSignal ? null : new AbortController()`;
`const timeoutId = controller ? setTimeout(...) : null`). -/
def perAttemptDeadline (retryCount : Nat) (hasExternalSignal : Bool) : Option Nat :=
  if hasExternalSignal then none else some (fetchTimeoutMs retryCount)

/-- The outer hard cap set by `fetchAndProcessProduct` (background.js
lines 277–280): `setTimeout(() => controller.abort(), 20000)`. -/
def operationHardCapMs : Nat := 20000

/-- Sales data record as produced by the parser / graceful degradation
(`{ boughtInPastMonth, totalVariants }`). -/
structure SalesData where
  boughtInPastMonth : Nat
  totalVariants : Nat
deriving Repr, DecidableEq

/-- The structured product record.  `Option` encodes JavaScript
`null`/absent.  `metadata` keeps the deterministic parts of the metadata
attached in `fetchAndProcessProduct` (background.js lines 294–299):
`source` URL and `retryCount` (`fetchTime`/`fetchDate` are wall-clock
readings and are not modelled). -/
structure ProductData where
  asin : String
  brand : Option String := none
  bsr : Option String := none
  salesData : Option SalesData := none
  variants : Option (List String) := none
  error : Option String := none
  parsingError : Bool := false
  metadata : Option (String × Nat) := none
deriving Repr, DecidableEq

/-- The parser collaborator: `AmazonParser.parseProductPage(html, asin)`
(parser.js), which either returns a record or throws (`Except.error`
carries the thrown message). -/
def Parse : Type := String → String → Except String ProductData

/-- `ErrorHandler.handleGracefulDegradation` (settings-manager.js lines
600–621) restricted to its per-data-type fallback values (no explicit
`fallbackData` argument is ever passed at the call sites in
`parseProductData`).  Returned as individual values below. -/
def degradedBrand : Option String := some "未知品牌"

/-- Graceful-degradation fallback for `bsr`: `null`. -/
def degradedBsr : Option String := none

/-- Graceful-degradation fallback for `salesData`:
`{ boughtInPastMonth: 0, totalVariants: 1 }`. -/
def degradedSalesData : Option SalesData := some ⟨0, 1⟩

/-- Graceful-degradation fallback for `variants`: `[]`. -/
def degradedVariants : Option (List String) := some []

/-- `BackgroundService.parseProductData` (background.js lines 456–516).
On a parser exception the `catch` block builds a fallback record with the
`asin`, the error message and `parsingError: true`, then attempts
per-field partial extraction.  Each per-field attempt references the
`parser` constant, which is scoped to the `try` block and is therefore
not in scope in the `catch` block: every `parser.extract…(html)` call
throws a `ReferenceError`, which the per-field `catch` turns into the
`handleGracefulDegradation` fallback for that field.  The function never
throws. -/
def parseProductData (parse : Parse) (html asin : String) : ProductData :=
  match parse html asin with
  | .ok d => d
  | .error msg =>
    { asin := asin
      error := some msg
      parsingError := true
      brand := degradedBrand
      bsr := degradedBsr
      salesData := degradedSalesData
      variants := degradedVariants }

/-! ## Cache store (`cache-manager.js`) -/

/-- The cache-relevant settings of `CacheManager` (cache-manager.js lines
13–18): `cacheExpiry` in hours, `maxCacheSize` a count,
`cleanupThreshold` and `cleanupRatio` fractions. -/
structure CacheSettings where
  cacheExpiry : Nat
  maxCacheSize : Nat
  cleanupThreshold : ℚ
  cleanupRatio : ℚ
deriving Repr, DecidableEq

/-- A stored cache entry (cache-manager.js lines 112–116): the product
data, the insertion timestamp and the last-access timestamp. -/
structure CacheEntry where
  data : ProductData
  timestamp : Nat
  accessTimestamp : Nat
deriving Repr, DecidableEq

/-- A record of the `cacheIndex` array (cache-manager.js lines 179–183):
`{ key, asin, timestamp }`. -/
structure IndexRecord where
  key : String
  asin : String
  timestamp : Nat
deriving Repr, DecidableEq

/-- The cache state: the `chrome.storage.local` key-value store (as a
function from keys to optional entries), the `cacheIndex` array, and the
in-memory `cacheStats` counters. -/
structure CacheState where
  store : String → Option CacheEntry
  cacheIndex : List IndexRecord
  hits : Nat
  misses : Nat
  lastCleanup : Nat

/-- The empty cache state. -/
def emptyCache (now : Nat) : CacheState :=
  ⟨fun _ => none, [], 0, 0, now⟩

/-- `CacheManager.generateCacheKey` (cache-manager.js line 137). -/
def generateCacheKey (asin : String) : String := "cache_" ++ asin

/-- `CacheManager.updateAccessTimestamp` (cache-manager.js lines
145–159): re-read the entry and rewrite it with the current time as
`accessTimestamp`. -/
def updateAccessTimestamp (now : Nat) (key : String) (s : CacheState) : CacheState :=
  match s.store key with
  | some e =>
    { s with store := fun k =>
        if k = key then some { e with accessTimestamp := now } else s.store k }
  | none => s

/-- `CacheManager.removeFromCache` (cache-manager.js lines 195–207):
remove the stored entry and filter its record out of the index. -/
def removeFromCache (key : String) (s : CacheState) : CacheState :=
  { s with
    store := fun k => if k = key then none else s.store k
    cacheIndex := s.cacheIndex.filter (fun r => r.key ≠ key) }

/-- The `findIndex`/`splice` step of `addToCacheIndex` (cache-manager.js
lines 173–176): remove the first record with the given key, if any. -/
def dropFirstKey (key : String) : List IndexRecord → List IndexRecord
  | [] => []
  | r :: rs => if r.key = key then rs else r :: dropFirstKey key rs

/-- `CacheManager.addToCacheIndex` (cache-manager.js lines 167–188):
remove any existing record for the key, then push a fresh
`{ key, asin, timestamp: Date.now() }` at the end. -/
def addToCacheIndex (key asin : String) (now : Nat) (s : CacheState) : CacheState :=
  { s with cacheIndex := dropFirstKey key s.cacheIndex ++ [⟨key, asin, now⟩] }

/-- `CacheManager.getCachedData` (cache-manager.js lines 68–98).  Returns
the cached product data (or `none`) together with the updated state.
JavaScript computes `Date.now() - cachedEntry.timestamp < expiryMs`;
with `Nat` subtraction this is the same predicate whenever
`entry.timestamp ≤ now` (and for a clock that ran backwards both give a
hit, JavaScript because the difference is negative, `Nat` because the
truncated difference is `0`). -/
def getCachedData (cfg : CacheSettings) (now : Nat) (asin : String)
    (s : CacheState) : Option ProductData × CacheState :=
  let key := generateCacheKey asin
  match s.store key with
  | none => (none, { s with misses := s.misses + 1 })
  | some entry =>
    let expiryMs := cfg.cacheExpiry * 60 * 60 * 1000
    if now - entry.timestamp < expiryMs then
      let s1 := updateAccessTimestamp now key s
      (some entry.data, { s1 with hits := s1.hits + 1 })
    else
      (none, removeFromCache key { s with misses := s.misses + 1 })

/-- Insertion into the sort by `timestamp` (ascending) performed by
`cacheIndex.sort((a, b) => a.timestamp - b.timestamp)` in
`cleanupCache`. -/
def insertByTs (r : IndexRecord) : List IndexRecord → List IndexRecord
  | [] => [r]
  | x :: xs => if r.timestamp ≤ x.timestamp then r :: x :: xs else x :: insertByTs r xs

/-- Stable ascending sort of the index by `timestamp`. -/
def sortByTs : List IndexRecord → List IndexRecord
  | [] => []
  | x :: xs => insertByTs x (sortByTs xs)

/-- `Math.ceil(cacheIndex.length * this.settings.cleanupRatio)`
(cache-manager.js line 248). -/
def ratioCeil (len : Nat) (ratio : ℚ) : Nat :=
  (Int.ceil ((len : ℚ) * ratio)).toNat

/-- `CacheManager.cleanupCache` (cache-manager.js lines 232–260): no-op
on an empty index; otherwise record the cleanup time, sort a copy of the
index ascending by timestamp, and remove the oldest
`ceil(length * cleanupRatio)` items (store entry and index record each,
via `removeFromCache`). -/
def cleanupCache (cfg : CacheSettings) (now : Nat) (s : CacheState) : CacheState :=
  if s.cacheIndex.length = 0 then s
  else
    let s0 := { s with lastCleanup := now }
    let sorted := sortByTs s.cacheIndex
    let removeCount := ratioCeil s.cacheIndex.length cfg.cleanupRatio
    (sorted.take removeCount).foldl (fun acc item => removeFromCache item.key acc) s0

/-- `CacheManager.checkAndCleanupCache` (cache-manager.js lines
213–226): run the cleanup when
`cacheIndex.length ≥ maxCacheSize * cleanupThreshold`. -/
def checkAndCleanupCache (cfg : CacheSettings) (now : Nat) (s : CacheState) : CacheState :=
  if (s.cacheIndex.length : ℚ) ≥ (cfg.maxCacheSize : ℚ) * cfg.cleanupThreshold then
    cleanupCache cfg now s
  else s

/-- `CacheManager.cacheProductData` (cache-manager.js lines 106–129):
cleanup check first, then write the entry
`{ data, timestamp: now, accessTimestamp: now }` and a fresh index
record. -/
def cacheProductData (cfg : CacheSettings) (now : Nat) (asin : String)
    (data : ProductData) (s : CacheState) : CacheState :=
  let s1 := checkAndCleanupCache cfg now s
  let key := generateCacheKey asin
  let entry : CacheEntry := ⟨data, now, now⟩
  let s2 := addToCacheIndex key asin now s1
  { s2 with store := fun k => if k = key then some entry else s2.store k }

/-- The record returned by `CacheManager.getCacheStats` (cache-manager.js
lines 293–308). -/
structure CacheStatsOut where
  hits : Nat
  misses : Nat
  lastCleanup : Nat
  totalItems : Nat
  usagePercent : ℚ
  hitRatio : ℚ
deriving Repr, DecidableEq

/-- JavaScript `x || 1` on a non-negative number. -/
def jsOrOne (n : Nat) : Nat := if n = 0 then 1 else n

/-- `CacheManager.getCacheStats` (cache-manager.js lines 293–308):
`usagePercent = totalItems / maxCacheSize * 100` and
`hitRatio = hits / (hits + misses || 1) * 100`. -/
def getCacheStats (cfg : CacheSettings) (s : CacheState) : CacheStatsOut :=
  { hits := s.hits
    misses := s.misses
    lastCleanup := s.lastCleanup
    totalItems := s.cacheIndex.length
    usagePercent := (s.cacheIndex.length : ℚ) / (cfg.maxCacheSize : ℚ) * 100
    hitRatio := (s.hits : ℚ) / (jsOrOne (s.hits + s.misses) : ℚ) * 100 }

/-- `CacheManager.clearCache` (cache-manager.js lines 266–287): remove
every key listed in the index, reset the index and the statistics. -/
def clearCache (now : Nat) (s : CacheState) : CacheState :=
  { store := fun k => if s.cacheIndex.any (fun r => r.key == k) then none else s.store k
    cacheIndex := []
    hits := 0
    misses := 0
    lastCleanup := now }

/-! ## Fetch orchestrator (`background.js`) -/

/-- The orchestrator settings used by the retry loop
(`BackgroundService.settings`, background.js lines 20–35):
`maxRetries` and `retryDelay` (ms). -/
structure OrchSettings where
  maxRetries : Nat
  retryDelay : Nat
deriving Repr, DecidableEq

/-- The delay computation of the retry branch of
`fetchAndProcessProduct` (background.js lines 326–331): start from
`retryDelay`, override by strategy. -/
def computeRetryDelay (retryDelay : Nat) (strategy : String) (retries : Nat) : Nat :=
  if strategy = "exponential" then retryDelay * 2 ^ retries
  else if strategy = "linear" then retryDelay * (retries + 1)
  else retryDelay

/-- Metadata recorded for one attempt of the retry loop: the `retries`
counter at dispatch, the per-attempt deadline actually armed inside
`fetchProductPage`, the outer hard cap, and — when the attempt failed and
was retried — the computed backoff delay before the re-dispatch. -/
structure AttemptMeta where
  retries : Nat
  armedTimeout : Option Nat
  hardCapMs : Nat
  retryDelayMs : Option Nat
deriving Repr, DecidableEq

/-- The error response sent by `fetchAndProcessProduct` after retries
are exhausted or the error is non-recoverable (background.js lines
350–359): `{ success: false, error: userMessage, errorType,
technicalMessage, recoverable, asin, retries }`. -/
structure FailureResponse where
  error : String
  errorType : String
  technicalMessage : String
  recoverable : Bool
  asin : String
  retries : Nat
deriving Repr, DecidableEq

/-- The outcome delivered to `sendResponse` by the retry loop: a
`{ success: true, data }` response or a `{ success: false, … }` one. -/
inductive ResolveResult where
  | ok (data : ProductData)
  | fail (f : FailureResponse)
deriving Repr, DecidableEq

/-- `success` flag of a `ResolveResult`. -/
def ResolveResult.successFlag : ResolveResult → Bool
  | .ok _ => true
  | .fail _ => false

/-- The retry loop of `BackgroundService.fetchAndProcessProduct`
(background.js lines 267–367), sequentialized for a single key: a failed
recoverable attempt with `retries < maxRetries` re-enqueues
`{ asin, url, retries: retries + 1 }` at the head of the queue after the
backoff delay, and with no other work pending the next `processQueue`
step dispatches exactly that item — the recursion below is that
re-dispatch.  The first component of the result is the response sent,
the second the per-attempt metadata (in dispatch order), the third the
cache state (a successful parse is written through `cacheProductData`).
The `fuel` argument only makes the recursion structural: the loop itself
terminates because every re-dispatch requires `retries < maxRetries`, so
any `fuel > maxRetries - retries` never reaches the out-of-fuel
sentinel. -/
def fetchLoop (ocfg : OrchSettings) (ccfg : CacheSettings) (now : Nat)
    (transport : Nat → FetchOutcome) (parse : Parse) (asin url : String) :
    Nat → Nat → CacheState → ResolveResult × List AttemptMeta × CacheState
  | 0, retries, cache =>
    (.fail ⟨"", "out_of_fuel", "", false, asin, retries⟩, [], cache)
  | fuel + 1, retries, cache =>
    let meta : AttemptMeta :=
      ⟨retries, perAttemptDeadline retries true, operationHardCapMs, none⟩
    match fetchProductPage (transport retries) with
    | .ok html =>
      let pd0 := parseProductData parse html asin
      let pd := { pd0 with metadata := some (url, retries) }
      (.ok pd, [meta], cacheProductData ccfg now asin pd cache)
    | .error e =>
      let info := handleNetworkError e
      if retries < ocfg.maxRetries && info.recoverable then
        let delay := computeRetryDelay ocfg.retryDelay info.retryStrategy retries
        let r := fetchLoop ocfg ccfg now transport parse asin url fuel (retries + 1) cache
        (r.1, { meta with retryDelayMs := some delay } :: r.2.1, r.2.2)
      else
        (.fail ⟨info.userMessage, info.type, info.technicalMessage,
               info.recoverable, asin, retries⟩, [meta], cache)

/-- A full resolution of one key starting at `retries = 0`, with enough
fuel for the whole retry budget. -/
def resolveProduct (ocfg : OrchSettings) (ccfg : CacheSettings) (now : Nat)
    (transport : Nat → FetchOutcome) (parse : Parse) (asin url : String)
    (cache : CacheState) : ResolveResult × List AttemptMeta × CacheState :=
  fetchLoop ocfg ccfg now transport parse asin url (ocfg.maxRetries + 1) 0 cache

/-- An item of `BackgroundService.requestQueue` (background.js lines
214–219): `{ asin, url, retries }` (the `sendResponse` callback is the
recipient identity and is not needed for the properties proved here). -/
structure QueueItem where
  asin : String
  url : String
  retries : Nat
deriving Repr, DecidableEq

/-- The service-level mutable state of `BackgroundService`:
`requestQueue`, `activeRequests`, the cache, and a log of the keys for
which a transport call has been dispatched (newest last).  The log
models the `fetch()` calls issued; an entry is appended exactly when
`fetchAndProcessProduct` is started. -/
structure SvcState where
  requestQueue : List QueueItem
  activeRequests : Nat
  cache : CacheState
  transportCalls : List String

/-- The synchronous prefix of
`BackgroundService.handleFetchProductDetails` (background.js lines
198–240) together with the dispatch of the transport call, i.e. the
state reached while the fetch for the key is still in flight: check the
cache; on a hit respond `fromCache` with no dispatch; on a miss either
enqueue `{ asin, url, retries: 0 }` at the tail (when
`activeRequests ≥ maxConcurrentRequests`) or increment `activeRequests`
and start `fetchAndProcessProduct`, which issues the transport call. -/
def startFetchProductDetails (maxConcurrent : Nat) (ccfg : CacheSettings)
    (now : Nat) (asin url : String) (s : SvcState) : SvcState :=
  match getCachedData ccfg now asin s.cache with
  | (some _, c1) => { s with cache := c1 }
  | (none, c1) =>
    if s.activeRequests ≥ maxConcurrent then
      { s with cache := c1, requestQueue := s.requestQueue ++ [⟨asin, url, 0⟩] }
    else
      { s with cache := c1
               activeRequests := s.activeRequests + 1
               transportCalls := s.transportCalls ++ [asin] }

/-- The re-enqueue step of the retry branch of `fetchAndProcessProduct`
(background.js lines 334–344): `requestQueue.unshift({...})` puts the
retried item at the head of the queue, and `activeRequests` is
decremented. -/
def retryRequeue (item : QueueItem) (s : SvcState) : SvcState :=
  { s with requestQueue := item :: s.requestQueue
           activeRequests := s.activeRequests - 1 }

/-! ## Specification-side definitions and concrete fixtures -/

/-- Modelled from the spec (§4.3): the error-classification table, keyed
by the spec's kind names, giving `(recoverable, backoff)`.  Used only to
compare the code's classifier against the specified table. -/
def specTable : String → Option (Bool × String)
  | "timeout" => some (true, "exponential")
  | "connection" => some (true, "linear")
  | "blocked" => some (false, "none")
  | "notFound" => some (false, "none")
  | "forbidden" => some (false, "none")
  | "rateLimited" => some (true, "exponential")
  | "serverError" => some (true, "linear")
  | "parsing" => some (true, "linear")
  | "unknown" => some (true, "exponential")
  | _ => none

/-- The correspondence between the code's kind strings
(settings-manager.js) and the spec's kind names (§4.3): `captcha` is the
code's name for a detected challenge/verification page (`blocked`). -/
def specKindOfCode : String → String
  | "captcha" => "blocked"
  | "not_found" => "notFound"
  | "rate_limited" => "rateLimited"
  | "server_error" => "serverError"
  | k => k

/-- A response body passing every validation of `fetchProductPage`:
non-empty, at least 1000 characters, contains `<html`, no CAPTCHA or
not-found markers. -/
def validHtml : String := "<html>" ++ String.mk (List.replicate 1000 'a')

/-- The default cache settings of the source (cache-manager.js lines
13–18). -/
def ccfgD : CacheSettings := ⟨24, 500, 9/10, 3/10⟩

/-- The cache settings of the spec's eviction scenario (§8):
`maxEntries = 10, cleanupThreshold = 0.9, cleanupRatio = 0.3`. -/
def cfg10 : CacheSettings := ⟨24, 10, 9/10, 3/10⟩

/-- A parser collaborator whose full parse always throws. -/
def parseBoom : Parse := fun _ _ => .error "boom"

/-- The `AbortError` raised by `controller.abort()` when a deadline
fires. -/
def abortErr : JsError := ⟨"AbortError", "signal is aborted without reason"⟩

/-- An initial service state: empty queue, no active requests, empty
cache, no transport calls issued. -/
def svc0 : SvcState := ⟨[], 0, emptyCache 0, []⟩

/-- A concrete cache entry inserted at time 1000. -/
def entryA : CacheEntry := ⟨{ asin := "A" }, 1000, 1000⟩

/-- A cache state holding `entryA` under key `cache_A` with a matching
index record. -/
def stA : CacheState :=
  { store := fun k => if k = "cache_A" then some entryA else none
    cacheIndex := [⟨"cache_A", "A", 1000⟩]
    hits := 0
    misses := 0
    lastCleanup := 0 }

/-- Nine index records with distinct keys and insertion times 1..9. -/
def idx9 : List IndexRecord :=
  (List.range 9).map (fun i => ⟨"cache_K" ++ toString i, "K" ++ toString i, i + 1⟩)

/-- A cache state with nine live entries (index only; the stored entries
are irrelevant to the eviction count). -/
def st9 : CacheState :=
  { store := fun _ => none, cacheIndex := idx9, hits := 0, misses := 0, lastCleanup := 0 }

/-- A cache state with one hit and one miss recorded. -/
def stStats : CacheState :=
  { store := fun _ => none, cacheIndex := [], hits := 1, misses := 1, lastCleanup := 0 }

/-! ## Claim theorems -/

/-- C8: the error classifier `handleNetworkError` is a pure function of
the raw failure and realises exactly the spec's table: whatever kind it
assigns, the `(recoverable, backoff)` pair is the table's row for that
kind (first conjunct, for every input), and each signal category maps to
the kind of the table — abort to `timeout` (recoverable, exponential)
for every message, connectivity failure to `connection`, a detected
CAPTCHA page to `captcha` (the spec's `blocked`), a 404-equivalent to
`not_found`, a 403-equivalent to `forbidden`, a 429-equivalent to
`rate_limited`, a 500-equivalent to `server_error`, and anything else to
`unknown` (recoverable, exponential). -/
theorem c8_classifier_table :
    (∀ e : JsError, specTable (specKindOfCode (handleNetworkError e).type) =
        some ((handleNetworkError e).recoverable, (handleNetworkError e).retryStrategy))
    ∧ (∀ m : String, (handleNetworkError ⟨"AbortError", m⟩).type = "timeout"
        ∧ (handleNetworkError ⟨"AbortError", m⟩).recoverable = true
        ∧ (handleNetworkError ⟨"AbortError", m⟩).retryStrategy = "exponential")
    ∧ handleNetworkError (mkError "NetworkError when attempting to fetch resource")
        = ⟨"connection", "网络连接错误，请检查您的网络连接", "Network connection error", true, "linear"⟩
    ∧ handleNetworkError (mkError "Access blocked - CAPTCHA verification required")
        = ⟨"captcha", "访问受限，请稍后再试", "CAPTCHA detected, access blocked", false, "none"⟩
    ∧ handleNetworkError (mkError "Product page not found")
        = ⟨"not_found", "产品信息不可用", "Product page not found (404)", false, "none"⟩
    ∧ handleNetworkError (mkError "HTTP error! Status: 403")
        = ⟨"forbidden", "访问被拒绝，请稍后再试", "Access forbidden (403)", false, "none"⟩
    ∧ handleNetworkError (mkError "HTTP error! Status: 429")
        = ⟨"rate_limited", "请求过于频繁，请稍后再试", "Rate limited (429)", true, "exponential"⟩
    ∧ handleNetworkError (mkError "HTTP error! Status: 500")
        = ⟨"server_error", "服务器错误，请稍后再试", "Server error (500)", true, "linear"⟩
    ∧ handleNetworkError (mkError "something else entirely")
        = ⟨"unknown", "网络错误，请稍后再试", "something else entirely", true, "exponential"⟩ := by
  refine ⟨?_, ?_, by decide, by decide, by decide, by decide, by decide, by decide, by decide⟩
  · intro e
    simp only [handleNetworkError]
    split_ifs <;> rfl
  · intro m
    simp [handleNetworkError]

/-- In every branch of the classifier, the `none` backoff strategy is
paired with `recoverable: false`. -/
theorem strategyNone_not_recoverable (e : JsError) :
    (handleNetworkError e).retryStrategy = "none" →
    (handleNetworkError e).recoverable = false := by
  simp only [handleNetworkError]
  split_ifs <;> simp

/-- C7: backoff math of the retry branch of `fetchAndProcessProduct` —
exponential delay `retryDelay * 2^attempt`, linear delay
`retryDelay * (attempt+1)`; a classification with strategy `none` is
never recoverable, so the retry guard
`retries < maxRetries && recoverable` always refuses it; the retried
item is unshifted at the head of the queue; and with
`retryDelay = 1000`: a linear run (HTTP 500) delays 1000, 2000, 3000 ms
and an exponential run (HTTP 429) delays 1000, 2000, 4000 ms before the
final attempt. -/
theorem c7_backoff_math :
    (∀ d n : Nat, computeRetryDelay d "exponential" n = d * 2 ^ n)
    ∧ (∀ d n : Nat, computeRetryDelay d "linear" n = d * (n + 1))
    ∧ (∀ e : JsError, (handleNetworkError e).retryStrategy = "none" →
        (handleNetworkError e).recoverable = false)
    ∧ (∀ (maxRetries retries : Nat) (e : JsError),
        (handleNetworkError e).retryStrategy = "none" →
        (decide (retries < maxRetries) && (handleNetworkError e).recoverable) = false)
    ∧ (∀ (item : QueueItem) (s : SvcState),
        (retryRequeue item s).requestQueue = item :: s.requestQueue)
    ∧ (resolveProduct ⟨3, 1000⟩ ccfgD 0 (fun _ => .resp 500 "x") parseBoom "A" "u"
        (emptyCache 0)).2.1.map (fun m => m.retryDelayMs)
        = [some 1000, some 2000, some 3000, none]
    ∧ (resolveProduct ⟨3, 1000⟩ ccfgD 0 (fun _ => .exn (mkError "HTTP error! Status: 429"))
        parseBoom "A" "u" (emptyCache 0)).2.1.map (fun m => m.retryDelayMs)
        = [some 1000, some 2000, some 4000, none] := by
  refine ⟨fun d n => rfl, fun d n => rfl, strategyNone_not_recoverable, ?_,
    fun item s => rfl, by decide, by decide⟩
  intro maxRetries retries e h
  simp [strategyNone_not_recoverable e h]

/-- Every attempt dispatched by the retry loop passes the external abort
signal into `fetchProductPage`, so its widening per-attempt timeout is
never armed; only the 20000 ms hard cap guards the attempt. -/
theorem fetchLoop_armedTimeout (ocfg : OrchSettings) (ccfg : CacheSettings)
    (now : Nat) (transport : Nat → FetchOutcome) (parse : Parse) (asin url : String) :
    ∀ (fuel retries : Nat) (cache : CacheState),
    ∀ m ∈ (fetchLoop ocfg ccfg now transport parse asin url fuel retries cache).2.1,
      m.armedTimeout = none ∧ m.hardCapMs = operationHardCapMs := by
  intro fuel
  induction fuel with
  | zero =>
    intro retries cache m hm
    simp [fetchLoop] at hm
  | succ f ih =>
    intro retries cache m hm
    simp only [fetchLoop] at hm
    split at hm
    · simp only [List.mem_singleton] at hm
      subst hm
      exact ⟨rfl, rfl⟩
    · split at hm
      · simp only [List.mem_cons] at hm
        rcases hm with hm | hm
        · subst hm
          exact ⟨rfl, rfl⟩
        · exact ih _ _ m hm
      · simp only [List.mem_singleton] at hm
        subst hm
        exact ⟨rfl, rfl⟩

/-- C3 counterexample: in a concrete resolution (always-aborting
transport, `maxRetries = 2`) the per-attempt deadline armed at each of
the three dispatched attempts is `none` — not the widening
`10000 + N * 5000` ms deadline the claim states. -/
theorem c3_counterexample :
    ((resolveProduct ⟨2, 1000⟩ ccfgD 0 (fun _ => .exn abortErr) parseBoom "A" "u"
        (emptyCache 0)).2.1.map (fun m => m.armedTimeout) = [none, none, none])
    ∧ [(none : Option Nat), none, none]
        ≠ [some (fetchTimeoutMs 0), some (fetchTimeoutMs 1), some (fetchTimeoutMs 2)] :=
  ⟨by decide, by decide⟩

/-- C3 (amended): `fetchProductPage` computes the widening timeout
`10000 + N * 5000` but arms it only when called without an external
signal; the orchestrator always passes the outer controller's signal, so
every dispatched attempt runs with no per-attempt deadline and only the
outer 20000 ms hard cap. -/
theorem c3_deadline_policy (ocfg : OrchSettings) (ccfg : CacheSettings) (now : Nat)
    (transport : Nat → FetchOutcome) (parse : Parse) (asin url : String)
    (cache : CacheState) :
    (∀ m ∈ (resolveProduct ocfg ccfg now transport parse asin url cache).2.1,
        m.armedTimeout = none ∧ m.hardCapMs = operationHardCapMs)
    ∧ (∀ n : Nat, perAttemptDeadline n false = some (10000 + n * 5000))
    ∧ operationHardCapMs = 20000 :=
  ⟨fun m hm => fetchLoop_armedTimeout ocfg ccfg now transport parse asin url _ _ cache m hm,
   fun _ => rfl, rfl⟩

/-- C3 witness: the amended statement applied to a concrete run (one
HTTP-500 failure then exhaustion, `maxRetries = 1`): its first attempt
record carries no armed per-attempt timeout and the 20000 ms cap. -/
theorem c3_deadline_policy_witness :
    ((⟨0, none, 20000, some 1000⟩ : AttemptMeta) ∈
      (resolveProduct ⟨1, 1000⟩ ccfgD 0 (fun _ => .resp 500 "x") parseBoom "A" "u"
        (emptyCache 0)).2.1)
    ∧ ((⟨0, none, 20000, some 1000⟩ : AttemptMeta).armedTimeout = none
        ∧ (⟨0, none, 20000, some 1000⟩ : AttemptMeta).hardCapMs = operationHardCapMs) :=
  ⟨by decide,
   (c3_deadline_policy ⟨1, 1000⟩ ccfgD 0 (fun _ => .resp 500 "x") parseBoom "A" "u"
      (emptyCache 0)).1 ⟨0, none, 20000, some 1000⟩ (by decide)⟩

/-- A transport that aborts on every attempt: `fetchProductPage` rewrites
the `AbortError` to `Error('Request timed out')`, whose message does not
contain the substring `timeout`, so `handleNetworkError` classifies it
`unknown` (recoverable, exponential); the loop therefore spends the full
retry budget and fails with `errorType = "unknown"`. -/
theorem fetchLoop_abort (ocfg : OrchSettings) (ccfg : CacheSettings) (now : Nat)
    (parse : Parse) (asin url : String) :
    ∀ (fuel : Nat), 1 ≤ fuel → ∀ (retries : Nat) (cache : CacheState),
      retries + fuel = ocfg.maxRetries + 1 →
      (fetchLoop ocfg ccfg now (fun _ => .exn abortErr) parse asin url fuel retries cache).1
          = .fail ⟨"网络错误，请稍后再试", "unknown", "Request timed out", true, asin, ocfg.maxRetries⟩
        ∧ (fetchLoop ocfg ccfg now (fun _ => .exn abortErr) parse asin url
            fuel retries cache).2.1.length = fuel
        ∧ (fetchLoop ocfg ccfg now (fun _ => .exn abortErr) parse asin url
            fuel retries cache).2.2 = cache := by
  intro fuel
  induction fuel with
  | zero => intro h; omega
  | succ f ih =>
    intro _ retries cache h
    have hfp : fetchProductPage (FetchOutcome.exn abortErr)
        = .error (mkError "Request timed out") := rfl
    have hcl : handleNetworkError (mkError "Request timed out")
        = ⟨"unknown", "网络错误，请稍后再试", "Request timed out", true, "exponential"⟩ := rfl
    rcases Nat.lt_or_ge retries ocfg.maxRetries with hlt | hge
    · have hf : 1 ≤ f := by omega
      have h' : (retries + 1) + f = ocfg.maxRetries + 1 := by omega
      have hrec := ih hf (retries + 1) cache h'
      simp only [fetchLoop, hfp, hcl]
      simp [hlt, hrec.1, hrec.2.1, hrec.2.2]
    · have hr : retries = ocfg.maxRetries := by omega
      have hf0 : f = 0 := by omega
      simp only [fetchLoop, hfp, hcl]
      simp [Nat.not_lt.mpr hge, hr, hf0]

/-- C4: with a transport that always times out (aborts), the resolution
of a key performs exactly `maxRetries + 1` attempts and then surfaces a
failure carrying a user message and a technical message — but its kind
is `"unknown"`, not `"timeout"`: the `AbortError` is rewritten by
`fetchProductPage` into `Error('Request timed out')`, which defeats the
classifier's own timeout detection (`name === 'AbortError' ||
message.includes('timeout')`), even though `'Request timed out'` is
exactly the canonical technical message of the classifier's timeout
branch. -/
theorem c4_abort_pipeline (ocfg : OrchSettings) (ccfg : CacheSettings) (now : Nat)
    (parse : Parse) (asin url : String) (cache : CacheState) :
    (resolveProduct ocfg ccfg now (fun _ => .exn abortErr) parse asin url cache).2.1.length
        = ocfg.maxRetries + 1
    ∧ (resolveProduct ocfg ccfg now (fun _ => .exn abortErr) parse asin url cache).1
        = .fail ⟨"网络错误，请稍后再试", "unknown", "Request timed out", true, asin,
                ocfg.maxRetries⟩ := by
  have h := fetchLoop_abort ocfg ccfg now parse asin url (ocfg.maxRetries + 1)
    (by omega) 0 cache (by omega)
  exact ⟨h.2.1, h.1⟩

/-- C1 counterexample: from an empty service state
(`maxConcurrentRequests = 3`), two resolves of the same absent key `"A"`
issued while the first fetch is still in flight each dispatch their own
transport call — two calls, where the claim allows at most one. -/
theorem c1_counterexample :
    ((startFetchProductDetails 3 ccfgD 5 "A" "u"
        (startFetchProductDetails 3 ccfgD 5 "A" "u" svc0)).transportCalls.count "A" = 2)
    ∧ ¬ ((startFetchProductDetails 3 ccfgD 5 "A" "u"
        (startFetchProductDetails 3 ccfgD 5 "A" "u" svc0)).transportCalls.count "A" ≤ 1) :=
  ⟨by decide, by decide⟩

/-- C1 (amended): `handleFetchProductDetails` keeps no in-flight
registry — every resolve of an absent key below the concurrency limit
dispatches its own transport call, so `n` concurrent resolves of the
same absent key add exactly `n` transport calls. -/
theorem c1_no_dedup (maxConc : Nat) (ccfg : CacheSettings) (now : Nat) (asin url : String) :
    ∀ (n : Nat) (s : SvcState),
      s.cache.store (generateCacheKey asin) = none →
      s.activeRequests + n ≤ maxConc →
      ((fun st => startFetchProductDetails maxConc ccfg now asin url st)^[n] s).transportCalls.count asin
        = s.transportCalls.count asin + n := by
  intro n
  induction n with
  | zero => intro s _ _; simp
  | succ n ih =>
    intro s hmiss hcap
    have hlt : ¬ (s.activeRequests ≥ maxConc) := by omega
    have hstep : startFetchProductDetails maxConc ccfg now asin url s =
        { requestQueue := s.requestQueue
          activeRequests := s.activeRequests + 1
          cache := { s.cache with misses := s.cache.misses + 1 }
          transportCalls := s.transportCalls ++ [asin] } := by
      simp [startFetchProductDetails, getCachedData, hmiss, hlt]
    rw [Function.iterate_succ_apply, hstep,
      ih _ (by simpa using hmiss) (by simp; omega)]
    simp [List.count_append]
    omega

/-- C1 witness: the amended statement at `n = 2` from the empty service
state — two resolves of absent key `"A"` add exactly two transport
calls. -/
theorem c1_no_dedup_witness :
    (svc0.cache.store (generateCacheKey "A") = none)
    ∧ svc0.activeRequests + 2 ≤ 3
    ∧ ((fun st => startFetchProductDetails 3 ccfgD 5 "A" "u" st)^[2] svc0).transportCalls.count "A"
        = svc0.transportCalls.count "A" + 2 :=
  ⟨rfl, by decide, c1_no_dedup 3 ccfgD 5 "A" "u" 2 svc0 rfl (by decide)⟩

/-- The fallback record produced by the `catch` block of
`parseProductData` for a parse failure with message `msg`. -/
theorem parseProductData_fallback (parse : Parse) (html asin msg : String)
    (hthrow : parse html asin = .error msg) :
    parseProductData parse html asin =
      { asin := asin
        brand := degradedBrand
        bsr := degradedBsr
        salesData := degradedSalesData
        variants := degradedVariants
        error := some msg
        parsingError := true
        metadata := none } := by
  simp [parseProductData, hthrow]

/-- A single-attempt run: when the transport succeeds on attempt 0, the
loop performs exactly one attempt, responds with the (possibly fallback)
parse of the payload plus metadata, and writes it to the cache. -/
theorem fetchLoop_transport_ok (ocfg : OrchSettings) (ccfg : CacheSettings)
    (now : Nat) (transport : Nat → FetchOutcome) (parse : Parse)
    (asin url html : String) (cache : CacheState)
    (hok : fetchProductPage (transport 0) = .ok html) :
    resolveProduct ocfg ccfg now transport parse asin url cache =
      (.ok { parseProductData parse html asin with metadata := some (url, 0) },
       [⟨0, none, operationHardCapMs, none⟩],
       cacheProductData ccfg now asin
         { parseProductData parse html asin with metadata := some (url, 0) } cache) := by
  simp [resolveProduct, fetchLoop, hok, perAttemptDeadline]

set_option maxRecDepth 100000 in
/-- `validHtml` passes every validation of `fetchProductPage`. -/
theorem validHtml_ok :
    fetchProductPage (FetchOutcome.resp 200 validHtml) = .ok validHtml := by
  rfl

/-- C2 counterexample: `maxRetries = 2`, transport succeeds with a valid
page, full parse always throws — the resolution performs exactly one
attempt and delivers a success response; the parse failure is never
classified and never re-enters the retry path (the claim would demand
`maxRetries + 1 = 3` attempts ending in a parsing-kind failure). -/
theorem c2_counterexample :
    ((resolveProduct ⟨2, 1000⟩ ccfgD 7 (fun _ => .resp 200 validHtml) parseBoom "A" "u"
        (emptyCache 0)).2.1.length = 1)
    ∧ ((resolveProduct ⟨2, 1000⟩ ccfgD 7 (fun _ => .resp 200 validHtml) parseBoom "A" "u"
        (emptyCache 0)).1.successFlag = true)
    ∧ ((resolveProduct ⟨2, 1000⟩ ccfgD 7 (fun _ => .resp 200 validHtml) parseBoom "A" "u"
        (emptyCache 0)).2.1.length ≠ 2 + 1) := by
  rw [fetchLoop_transport_ok ⟨2, 1000⟩ ccfgD 7 (fun _ => .resp 200 validHtml) parseBoom
    "A" "u" validHtml (emptyCache 0) validHtml_ok]
  exact ⟨rfl, rfl, by decide⟩

/-- C2 (amended): a transport success whose full parse fails never
enters the retry path — `parseProductData` absorbs the parser exception
into a fallback record with the per-field degradation values, and the
orchestrator responds success on the first attempt, with no retry
regardless of `maxRetries`. -/
theorem c2_parse_fail_no_retry (ocfg : OrchSettings) (ccfg : CacheSettings)
    (now : Nat) (transport : Nat → FetchOutcome) (parse : Parse)
    (asin url html msg : String) (cache : CacheState)
    (hok : fetchProductPage (transport 0) = .ok html)
    (hthrow : parse html asin = .error msg) :
    ((resolveProduct ocfg ccfg now transport parse asin url cache).2.1.length = 1)
    ∧ ((resolveProduct ocfg ccfg now transport parse asin url cache).1.successFlag = true)
    ∧ ((resolveProduct ocfg ccfg now transport parse asin url cache).1 =
        .ok { asin := asin
              brand := degradedBrand
              bsr := degradedBsr
              salesData := degradedSalesData
              variants := degradedVariants
              error := some msg
              parsingError := true
              metadata := some (url, 0) }) := by
  rw [fetchLoop_transport_ok ocfg ccfg now transport parse asin url html cache hok,
    parseProductData_fallback parse html asin msg hthrow]
  exact ⟨rfl, rfl, rfl⟩

/-- C2 witness: the amended statement at a concrete run (`maxRetries =
2`, valid page, always-throwing parser). -/
theorem c2_parse_fail_no_retry_witness :
    (fetchProductPage (FetchOutcome.resp 200 validHtml) = .ok validHtml)
    ∧ (parseBoom validHtml "A" = .error "boom")
    ∧ ((resolveProduct ⟨2, 1000⟩ ccfgD 7 (fun _ => .resp 200 validHtml) parseBoom "A" "u"
        (emptyCache 0)).2.1.length = 1) :=
  ⟨validHtml_ok, rfl,
   (c2_parse_fail_no_retry ⟨2, 1000⟩ ccfgD 7 (fun _ => .resp 200 validHtml) parseBoom
      "A" "u" validHtml "boom" (emptyCache 0) validHtml_ok rfl).1⟩

/-- C10: parsing never throws to the orchestrator — on any parser
exception `parseProductData` returns the fallback record carrying the
asin, the error message, `parsingError: true` and the per-field
graceful-degradation values; the orchestrator caches exactly this record
(plus metadata) and delivers it as a success response, not as a
failure. -/
theorem c10_parse_fallback_success (ocfg : OrchSettings) (ccfg : CacheSettings)
    (now : Nat) (transport : Nat → FetchOutcome) (parse : Parse)
    (asin url html msg : String) (cache : CacheState)
    (hok : fetchProductPage (transport 0) = .ok html)
    (hthrow : parse html asin = .error msg) :
    (parseProductData parse html asin =
      { asin := asin
        brand := degradedBrand
        bsr := degradedBsr
        salesData := degradedSalesData
        variants := degradedVariants
        error := some msg
        parsingError := true
        metadata := none })
    ∧ ((resolveProduct ocfg ccfg now transport parse asin url cache).1 =
        .ok { parseProductData parse html asin with metadata := some (url, 0) })
    ∧ ((resolveProduct ocfg ccfg now transport parse asin url cache).1.successFlag = true)
    ∧ ((resolveProduct ocfg ccfg now transport parse asin url cache).2.2.store
          (generateCacheKey asin)
        = some ⟨{ parseProductData parse html asin with metadata := some (url, 0) },
                now, now⟩) := by
  refine ⟨parseProductData_fallback parse html asin msg hthrow, ?_, ?_, ?_⟩
  · rw [fetchLoop_transport_ok ocfg ccfg now transport parse asin url html cache hok]
  · rw [fetchLoop_transport_ok ocfg ccfg now transport parse asin url html cache hok]
    rfl
  · rw [fetchLoop_transport_ok ocfg ccfg now transport parse asin url html cache hok]
    simp [cacheProductData]

/-- C10 witness: the statement at a concrete run (`maxRetries = 1`,
valid page, always-throwing parser): the fallback record is cached under
`cache_B`. -/
theorem c10_parse_fallback_success_witness :
    (fetchProductPage (FetchOutcome.resp 200 validHtml) = .ok validHtml)
    ∧ (parseBoom validHtml "B" = .error "boom")
    ∧ ((resolveProduct ⟨1, 1000⟩ ccfgD 3 (fun _ => .resp 200 validHtml) parseBoom "B" "u2"
        (emptyCache 0)).2.2.store (generateCacheKey "B")
        = some ⟨{ parseProductData parseBoom validHtml "B" with metadata := some ("u2", 0) },
                3, 3⟩) :=
  ⟨validHtml_ok, rfl,
   (c10_parse_fallback_success ⟨1, 1000⟩ ccfgD 3 (fun _ => .resp 200 validHtml) parseBoom
      "B" "u2" validHtml "boom" (emptyCache 0) validHtml_ok rfl).2.2.2⟩

/-- C5: TTL semantics of `getCachedData` for a present entry — strictly
inside the TTL (`now - insertedAt < ttl`, in particular at
`insertedAt + ttl - 1`) the lookup returns the stored value, increments
`hits` and re-stamps `accessTimestamp := now`; at or past the TTL
(`now - insertedAt ≥ ttl`, in particular at exactly `insertedAt + ttl`)
it returns a miss, increments `misses` and removes both the stored entry
and its index record. -/
theorem c5_ttl_boundary (cfg : CacheSettings) (s : CacheState) (asin : String)
    (entry : CacheEntry) (now : Nat)
    (hstore : s.store (generateCacheKey asin) = some entry) :
    (now - entry.timestamp < cfg.cacheExpiry * 60 * 60 * 1000 →
       (getCachedData cfg now asin s).1 = some entry.data
       ∧ (getCachedData cfg now asin s).2.hits = s.hits + 1
       ∧ (getCachedData cfg now asin s).2.misses = s.misses
       ∧ (getCachedData cfg now asin s).2.store (generateCacheKey asin)
           = some { entry with accessTimestamp := now }
       ∧ (getCachedData cfg now asin s).2.cacheIndex = s.cacheIndex)
    ∧ (cfg.cacheExpiry * 60 * 60 * 1000 ≤ now - entry.timestamp →
       (getCachedData cfg now asin s).1 = none
       ∧ (getCachedData cfg now asin s).2.misses = s.misses + 1
       ∧ (getCachedData cfg now asin s).2.hits = s.hits
       ∧ (getCachedData cfg now asin s).2.store (generateCacheKey asin) = none
       ∧ (getCachedData cfg now asin s).2.cacheIndex
           = s.cacheIndex.filter (fun r => r.key ≠ generateCacheKey asin)) := by
  constructor
  · intro h
    simp [getCachedData, hstore, h, updateAccessTimestamp]
  · intro h
    have h' : ¬ (now - entry.timestamp < cfg.cacheExpiry * 60 * 60 * 1000) :=
      Nat.not_lt.mpr h
    simp [getCachedData, hstore, h', removeFromCache]

/-- C5 witness: on the concrete state `stA` (entry inserted at 1000,
`ttl = 24h = 86400000 ms`), lookup at `now = 86400999` (`= insertedAt +
ttl - 1`) hits and lookup at `now = 86401000` (`= insertedAt + ttl`)
misses and removes the index record. -/
theorem c5_ttl_boundary_witness :
    (stA.store (generateCacheKey "A") = some entryA)
    ∧ (getCachedData ccfgD 86400999 "A" stA).1 = some entryA.data
    ∧ (getCachedData ccfgD 86400999 "A" stA).2.hits = stA.hits + 1
    ∧ (getCachedData ccfgD 86401000 "A" stA).1 = none
    ∧ (getCachedData ccfgD 86401000 "A" stA).2.misses = stA.misses + 1
    ∧ (getCachedData ccfgD 86401000 "A" stA).2.cacheIndex
        = stA.cacheIndex.filter (fun r => r.key ≠ generateCacheKey "A") :=
  ⟨rfl,
   ((c5_ttl_boundary ccfgD stA "A" entryA 86400999 rfl).1 (by decide)).1,
   ((c5_ttl_boundary ccfgD stA "A" entryA 86400999 rfl).1 (by decide)).2.1,
   ((c5_ttl_boundary ccfgD stA "A" entryA 86401000 rfl).2 (by decide)).1,
   ((c5_ttl_boundary ccfgD stA "A" entryA 86401000 rfl).2 (by decide)).2.1,
   ((c5_ttl_boundary ccfgD stA "A" entryA 86401000 rfl).2 (by decide)).2.2.2.2⟩

/-- C9 counterexample: with one hit and one miss recorded, the code's
`hitRatio` is `50` (a percentage), not `hits/(hits+misses) = 1/2` as the
claim states. -/
theorem c9_counterexample :
    (getCacheStats ccfgD stStats).hitRatio
      ≠ (stStats.hits : ℚ) / ((stStats.hits : ℚ) + (stStats.misses : ℚ)) := by
  norm_num [getCacheStats, stStats, jsOrOne]

/-- C9 (amended): `getCacheStats` reports the ratios as percentages —
`hitRatio = 100 · hits/(hits+misses)` whenever at least one lookup
happened (the `|| 1` guard only matters when both counters are zero) and
`usagePercent = 100 · liveEntries/maxEntries` — over the accumulated
`hits`/`misses` counters, which it reports unchanged. -/
theorem c9_stats_percent (cfg : CacheSettings) (s : CacheState)
    (h : s.hits + s.misses ≠ 0) :
    (getCacheStats cfg s).hitRatio
        = 100 * (s.hits : ℚ) / ((s.hits : ℚ) + (s.misses : ℚ))
    ∧ (getCacheStats cfg s).usagePercent
        = 100 * (s.cacheIndex.length : ℚ) / (cfg.maxCacheSize : ℚ)
    ∧ (getCacheStats cfg s).hits = s.hits
    ∧ (getCacheStats cfg s).misses = s.misses
    ∧ (getCacheStats cfg s).totalItems = s.cacheIndex.length := by
  refine ⟨?_, ?_, rfl, rfl, rfl⟩
  · simp only [getCacheStats, jsOrOne, h, if_false, ite_false]
    push_cast
    ring
  · simp only [getCacheStats]
    ring

/-- C9 witness: the amended statement on the concrete state with one hit
and one miss. -/
theorem c9_stats_percent_witness :
    (stStats.hits + stStats.misses ≠ 0)
    ∧ (getCacheStats ccfgD stStats).hitRatio
        = 100 * (stStats.hits : ℚ) / ((stStats.hits : ℚ) + (stStats.misses : ℚ)) :=
  ⟨by decide, (c9_stats_percent ccfgD stStats (by decide)).1⟩

/-- `insertByTs` inserts one record, permuting a cons. -/
theorem insertByTs_perm (r : IndexRecord) (l : List IndexRecord) :
    List.Perm (insertByTs r l) (r :: l) := by
  induction l with
  | nil => simp [insertByTs]
  | cons x xs ih =>
    simp only [insertByTs]
    split
    · exact List.Perm.refl _
    · exact ((ih.cons x).trans (List.Perm.swap r x xs))

/-- `sortByTs` is a permutation of its input. -/
theorem sortByTs_perm (l : List IndexRecord) : List.Perm (sortByTs l) l := by
  induction l with
  | nil => simp [sortByTs]
  | cons x xs ih => exact (insertByTs_perm x (sortByTs xs)).trans (ih.cons x)

/-- Insertion preserves sortedness by timestamp. -/
theorem insertByTs_pairwise (r : IndexRecord) (l : List IndexRecord)
    (h : l.Pairwise (fun a b => a.timestamp ≤ b.timestamp)) :
    (insertByTs r l).Pairwise (fun a b => a.timestamp ≤ b.timestamp) := by
  induction l with
  | nil => simp [insertByTs]
  | cons x xs ih =>
    simp only [insertByTs]
    rcases List.pairwise_cons.mp h with ⟨hx, hxs⟩
    split
    · refine List.pairwise_cons.mpr ⟨?_, h⟩
      intro b hb
      rcases List.mem_cons.mp hb with hb | hb
      · subst hb; assumption
      · exact le_trans (by assumption) (hx b hb)
    · refine List.pairwise_cons.mpr ⟨?_, ih hxs⟩
      intro b hb
      rcases List.mem_cons.mp ((insertByTs_perm r xs).mem_iff.mp hb) with hb2 | hb2
      · subst hb2; omega
      · exact hx b hb2

/-- `sortByTs` sorts ascending by timestamp. -/
theorem sortByTs_pairwise (l : List IndexRecord) :
    (sortByTs l).Pairwise (fun a b => a.timestamp ≤ b.timestamp) := by
  induction l with
  | nil => simp [sortByTs]
  | cons x xs ih => exact insertByTs_pairwise x (sortByTs xs) ih

/-- Folding `removeFromCache` over a list of items filters the index
down to the records whose key matches none of the items. -/
theorem foldl_remove_index (items : List IndexRecord) (s : CacheState) :
    (items.foldl (fun acc item => removeFromCache item.key acc) s).cacheIndex
      = s.cacheIndex.filter (fun r => items.all (fun item => r.key != item.key)) := by
  induction items generalizing s with
  | nil => simp
  | cons it its ih =>
    rw [List.foldl_cons, ih (removeFromCache it.key s)]
    show ((s.cacheIndex.filter _).filter _) = _
    rw [List.filter_filter]
    apply List.filter_congr
    intro a _
    simp only [List.all_cons, bne, Bool.and_comm]
    by_cases hk : a.key = it.key <;> simp [hk]

/-- Folding `removeFromCache` deletes exactly the items' keys from the
store. -/
theorem foldl_remove_store (items : List IndexRecord) (s : CacheState) (k : String) :
    (items.foldl (fun acc item => removeFromCache item.key acc) s).store k
      = if items.any (fun item => item.key == k) then none else s.store k := by
  induction items generalizing s with
  | nil => simp
  | cons it its ih =>
    rw [List.foldl_cons, ih (removeFromCache it.key s)]
    show (if _ then none else if k = it.key then none else s.store k) = _
    rw [List.any_cons]
    by_cases h1 : its.any (fun item => item.key == k)
    · simp [h1]
    · by_cases h2 : it.key = k
      · simp [h1, h2]
      · have h2' : ¬ (k = it.key) := fun h => h2 h.symm
        simp [h1, h2, h2']

/-- `removeFromCache` and its folds leave the statistics untouched. -/
theorem foldl_remove_stats (items : List IndexRecord) (s : CacheState) :
    (items.foldl (fun acc item => removeFromCache item.key acc) s).hits = s.hits
    ∧ (items.foldl (fun acc item => removeFromCache item.key acc) s).misses = s.misses
    ∧ (items.foldl (fun acc item => removeFromCache item.key acc) s).lastCleanup
        = s.lastCleanup := by
  induction items generalizing s with
  | nil => exact ⟨rfl, rfl, rfl⟩
  | cons it its ih => exact ih (removeFromCache it.key s)

/-- `dropFirstKey` is the identity when no record carries the key. -/
theorem dropFirstKey_of_not_mem (key : String) (l : List IndexRecord)
    (h : ∀ r ∈ l, r.key ≠ key) : dropFirstKey key l = l := by
  induction l with
  | nil => rfl
  | cons x xs ih =>
    simp only [dropFirstKey]
    rw [if_neg (h x (List.mem_cons_self x xs)), ih (fun r hr => h r (List.mem_cons_of_mem x hr))]

/-- With `cleanupRatio ≤ 1` the eviction count never exceeds the number
of live entries. -/
theorem ratioCeil_le (len : Nat) (ratio : ℚ) (h : ratio ≤ 1) : ratioCeil len ratio ≤ len := by
  have h1 : (len : ℚ) * ratio ≤ (len : ℚ) := by
    calc (len : ℚ) * ratio ≤ (len : ℚ) * 1 := by
          exact mul_le_mul_of_nonneg_left h (by positivity)
    _ = (len : ℚ) := mul_one _
  have h2 : Int.ceil ((len : ℚ) * ratio) ≤ Int.ceil ((len : ℚ)) := Int.ceil_le_ceil h1
  have h3 : Int.ceil ((len : ℚ)) = (len : ℤ) := Int.ceil_natCast len
  have h4 : Int.ceil ((len : ℚ) * ratio) ≤ (len : ℤ) := h3 ▸ h2
  simpa [ratioCeil] using Int.toNat_le_toNat h4

/-- C6: when the index has reached
`maxCacheSize * cleanupThreshold` at insertion time, `cacheProductData`
first evicts exactly `ceil(liveEntries * cleanupRatio)` entries — the
oldest by insertion timestamp, removing both stored entry and index
record — and then writes the new entry, so the live count afterwards is
`liveEntries - ceil(liveEntries * cleanupRatio) + 1`. -/
theorem c6_eviction_before_insert (cfg : CacheSettings) (s : CacheState) (now : Nat)
    (asin : String) (data : ProductData)
    (hnodup : (s.cacheIndex.map (fun r => r.key)).Nodup)
    (hfresh : ∀ r ∈ s.cacheIndex, r.key ≠ generateCacheKey asin)
    (hne : s.cacheIndex.length ≠ 0)
    (hratio : cfg.cleanupRatio ≤ 1)
    (hthr : (s.cacheIndex.length : ℚ) ≥ (cfg.maxCacheSize : ℚ) * cfg.cleanupThreshold) :
    ratioCeil s.cacheIndex.length cfg.cleanupRatio ≤ s.cacheIndex.length
    ∧ (cacheProductData cfg now asin data s).cacheIndex.length
        = s.cacheIndex.length - ratioCeil s.cacheIndex.length cfg.cleanupRatio + 1
    ∧ (⟨generateCacheKey asin, asin, now⟩ : IndexRecord)
        ∈ (cacheProductData cfg now asin data s).cacheIndex
    ∧ (cacheProductData cfg now asin data s).store (generateCacheKey asin)
        = some ⟨data, now, now⟩
    ∧ (∀ r ∈ s.cacheIndex, r ∉ (cacheProductData cfg now asin data s).cacheIndex →
        (cacheProductData cfg now asin data s).store r.key = none
        ∧ ∀ r' ∈ s.cacheIndex, r' ∈ (cacheProductData cfg now asin data s).cacheIndex →
            r.timestamp ≤ r'.timestamp) := by
  have hc := ratioCeil_le s.cacheIndex.length cfg.cleanupRatio hratio
  set c := ratioCeil s.cacheIndex.length cfg.cleanupRatio with hcdef
  set sorted := sortByTs s.cacheIndex with hsorteddef
  set taken := sorted.take c with htakendef
  set p : IndexRecord → Bool := fun r => taken.all (fun item => r.key != item.key) with hpdef
  have hclean : checkAndCleanupCache cfg now s = cleanupCache cfg now s := by
    simp only [checkAndCleanupCache]
    rw [if_pos hthr]
  have hcc_index : (cleanupCache cfg now s).cacheIndex = s.cacheIndex.filter p := by
    simp only [cleanupCache]
    rw [if_neg hne, foldl_remove_index]
  have hcc_store : ∀ k, (cleanupCache cfg now s).store k
      = if taken.any (fun item => item.key == k) then none else s.store k := by
    intro k
    simp only [cleanupCache]
    rw [if_neg hne, foldl_remove_store]
  have hfresh_filter : ∀ r ∈ s.cacheIndex.filter p, r.key ≠ generateCacheKey asin :=
    fun r hr => hfresh r (List.mem_filter.mp hr).1
  have hmain_index : (cacheProductData cfg now asin data s).cacheIndex
      = s.cacheIndex.filter p ++ [⟨generateCacheKey asin, asin, now⟩] := by
    show (addToCacheIndex (generateCacheKey asin) asin now
        (checkAndCleanupCache cfg now s)).cacheIndex = _
    rw [hclean]
    simp only [addToCacheIndex]
    rw [hcc_index, dropFirstKey_of_not_mem _ _ hfresh_filter]
  have hmain_store_key : (cacheProductData cfg now asin data s).store (generateCacheKey asin)
      = some ⟨data, now, now⟩ := by
    simp [cacheProductData]
  have hmain_store_other : ∀ k, k ≠ generateCacheKey asin →
      (cacheProductData cfg now asin data s).store k = (cleanupCache cfg now s).store k := by
    intro k hk
    simp only [cacheProductData, addToCacheIndex]
    rw [hclean, if_neg hk]
  have hperm : List.Perm sorted s.cacheIndex := sortByTs_perm _
  have hsort_nodup : (sorted.map (fun r => r.key)).Nodup :=
    ((hperm.map (fun r => r.key)).nodup_iff).mpr hnodup
  have hsplit : taken ++ sorted.drop c = sorted := List.take_append_drop c sorted
  have hpair : sorted.Pairwise (fun a b => a.timestamp ≤ b.timestamp) := sortByTs_pairwise _
  have hcross : ∀ x ∈ taken, ∀ y ∈ sorted.drop c, x.timestamp ≤ y.timestamp := by
    have hp2 : (taken ++ sorted.drop c).Pairwise (fun a b => a.timestamp ≤ b.timestamp) := by
      rw [hsplit]; exact hpair
    exact (List.pairwise_append.mp hp2).2.2
  have hp_false_mem_taken : ∀ r ∈ s.cacheIndex, p r = false → r ∈ taken := by
    intro r hr hpr
    rcases List.all_eq_false.mp hpr with ⟨it, hit, hkey⟩
    have hkeq : r.key = it.key := by simpa using hkey
    have hitmem : it ∈ sorted := by rw [← hsplit]; exact List.mem_append_left _ hit
    have hrmem : r ∈ sorted := hperm.mem_iff.mpr hr
    have heq : r = it := List.inj_on_of_nodup_map hsort_nodup hrmem hitmem hkeq
    rw [heq]; exact hit
  have hp_true_mem_drop : ∀ r ∈ s.cacheIndex, p r = true → r ∈ sorted.drop c := by
    intro r hr hpr
    have hrmem : r ∈ taken ++ sorted.drop c := by rw [hsplit]; exact hperm.mem_iff.mpr hr
    rcases List.mem_append.mp hrmem with h1 | h1
    · have := List.all_eq_true.mp hpr r h1
      simp at this
    · exact h1
  have hlen_filter : (s.cacheIndex.filter p).length = s.cacheIndex.length - c := by
    have h1 : (s.cacheIndex.filter p).length = (sorted.filter p).length :=
      ((hperm.filter p).length_eq).symm
    have h2 : sorted.filter p = (taken.filter p) ++ ((sorted.drop c).filter p) := by
      rw [← List.filter_append, hsplit]
    have h3 : taken.filter p = [] := by
      rw [List.filter_eq_nil_iff]
      intro a ha hpa
      have := List.all_eq_true.mp hpa a ha
      simp at this
    have h4 : (sorted.drop c).filter p = sorted.drop c := by
      rw [List.filter_eq_self]
      intro a ha
      rw [List.all_eq_true]
      intro it hit
      have hne2 : a.key ≠ it.key := by
        intro heq
        have hnd : ((taken.map (fun r => r.key)) ++
            ((sorted.drop c).map (fun r => r.key))).Nodup := by
          rw [← List.map_append, hsplit]; exact hsort_nodup
        have hdisj := (List.nodup_append.mp hnd).2.2
        exact hdisj (List.mem_map_of_mem _ hit) (heq ▸ List.mem_map_of_mem _ ha)
      simp [hne2]
    rw [h1, h2, h3, h4]
    simp [hperm.length_eq]
  refine ⟨hc, ?_, ?_, hmain_store_key, ?_⟩
  · rw [hmain_index]
    simp [hlen_filter]
  · rw [hmain_index]
    exact List.mem_append_right _ (List.mem_singleton_self _)
  · intro r hr hnotin
    have hpr : p r = false := by
      cases hcase : p r with
      | false => rfl
      | true =>
        exfalso
        apply hnotin
        rw [hmain_index]
        exact List.mem_append_left _ (List.mem_filter.mpr ⟨hr, hcase⟩)
    have hrt : r ∈ taken := hp_false_mem_taken r hr hpr
    constructor
    · rw [hmain_store_other r.key (hfresh r hr), hcc_store r.key]
      have hany : taken.any (fun item => item.key == r.key) = true :=
        List.any_eq_true.mpr ⟨r, hrt, by simp⟩
      rw [if_pos hany]
    · intro r' hr' hin'
      have hpr' : p r' = true := by
        rw [hmain_index] at hin'
        rcases List.mem_append.mp hin' with h1 | h1
        · exact (List.mem_filter.mp h1).2
        · exfalso
          apply hfresh r' hr'
          rw [List.mem_singleton.mp h1]
      exact hcross r hrt r' (hp_true_mem_drop r' hr' hpr')

/-- C6 witness: the spec's scenario — `maxEntries = 10`,
`cleanupThreshold = 0.9`, `cleanupRatio = 0.3`, nine live entries — the
next insert evicts `ceil(9 * 0.3) = 3` oldest entries before the write,
leaving 7 live entries. -/
theorem c6_eviction_before_insert_witness :
    ((st9.cacheIndex.map (fun r => r.key)).Nodup)
    ∧ ((st9.cacheIndex.length : ℚ) ≥ (cfg10.maxCacheSize : ℚ) * cfg10.cleanupThreshold)
    ∧ ratioCeil st9.cacheIndex.length cfg10.cleanupRatio = 3
    ∧ (cacheProductData cfg10 100 "NEW" { asin := "NEW" } st9).cacheIndex.length = 7 := by
  have hnodup : (st9.cacheIndex.map (fun r => r.key)).Nodup := by decide
  have hlen : st9.cacheIndex.length = 9 := by decide
  have hthr : (st9.cacheIndex.length : ℚ) ≥ (cfg10.maxCacheSize : ℚ) * cfg10.cleanupThreshold := by
    rw [hlen]
    norm_num [cfg10]
  have hceil : ⌈(27/10 : ℚ)⌉ = (3 : ℤ) := by
    rw [Int.ceil_eq_iff]
    norm_num
  have hrc : ratioCeil st9.cacheIndex.length cfg10.cleanupRatio = 3 := by
    rw [hlen]
    show ratioCeil 9 cfg10.cleanupRatio = 3
    norm_num [ratioCeil, cfg10, hceil]
    rfl
  have h := c6_eviction_before_insert cfg10 st9 100 "NEW" { asin := "NEW" }
    hnodup (by decide) (by decide) (by norm_num [cfg10]) hthr
  refine ⟨hnodup, hthr, hrc, ?_⟩
  rw [h.2.1, hrc, hlen]

/-- C7 witness: the `none`-strategy conjunct applied at a concrete
classification — the CAPTCHA failure has strategy `none` and is indeed
non-recoverable, so it is never retried. -/
theorem c7_backoff_math_witness :
    ((handleNetworkError (mkError "Access blocked - CAPTCHA verification required")).retryStrategy
        = "none")
    ∧ ((handleNetworkError (mkError "Access blocked - CAPTCHA verification required")).recoverable
        = false) :=
  ⟨by decide,
   c7_backoff_math.2.2.1 (mkError "Access blocked - CAPTCHA verification required") (by decide)⟩
